import Mathlib

set_option maxRecDepth 8000

/-!
Verification of the dnd-tools procedural name-generation engine.

The JavaScript sources are embedded shallowly: `Math.random()` draws are
modelled by an oracle `Nat → Nat` consulted at successive positions `k`,
where the JS draw `Math.floor(Math.random() * n)` at position `k` becomes
`oracle k % n`; strings are Lean `String`s manipulated through their
character lists, matching JS string semantics for the BMP text used here;
the unbounded conflict re-draw `while` loop carries explicit fuel and
yields `none` when the fuel is exhausted (modelling divergence of the JS
loop); all other loops in the sources are bounded and embed as structural
recursion.
-/

/-- Number of characters of a JS string (`s.length`). -/
def jsLen (s : String) : Nat := s.data.length

/-- JS `s.slice(0, n)`. -/
def jsTake (s : String) (n : Nat) : String := ⟨s.data.take n⟩

/-- JS `s.slice(n)`. -/
def jsDrop (s : String) (n : Nat) : String := ⟨s.data.drop n⟩

/-- JS `s.slice(a, b)` for `a ≤ b`. -/
def jsSlice (s : String) (a b : Nat) : String := ⟨(s.data.take b).drop a⟩

/-- JS `s.slice(-1)`: the last character as a string, or `""` when `s` is empty. -/
def jsLast (s : String) : String := ⟨s.data.drop (s.data.length - 1)⟩

/-- JS `s.toLowerCase()`, modelled characterwise with `Char.toLower`. -/
def jsToLower (s : String) : String := ⟨s.data.map Char.toLower⟩

/-- Names generated per request (`COUNT` in each generator file). -/
def COUNT : Nat := 10

/-- Maximum retry attempts before the best-effort fallback (`MAX_ATTEMPTS`). -/
def MAX_ATTEMPTS : Nat := 1000

/-- The static blocklist from sensitivity-check.ts (the `words` array). -/
def sensitiveWords : List String :=
  ["alah", "allah", "anal", "anilingus", "anus", "apeshit", "arse", "arsehole", "ass", "asshole", "assmunch", "autoerotic", "babeland", "balls", "ballsack", "bangbros", "bareback", "barenaked", "bastard", "bastardo", "bastinado", "beaner", "beaners", "bestiality", "biatch", "bigtits", "bimbos", "birdlock", "bitch", "bitches", "black", "bloody", "blowjob", "blumpkin", "bollock", "bollocks", "bollok", "bondage", "boner", "boob", "boobs", "bugger", "bukkake", "bulldyke", "bullshit", "bum", "bunghole", "busty", "butt", "buttcheeks", "butthole", "buttplug", "cameltoe", "camgirl", "camslut", "camwhore", "clit", "clitbeard", "clitoris", "cloaka", "clusterfuck", "cock", "cocks", "coon", "coons", "cornhole", "crap", "creampie", "crystalnight", "crystal night", "cum", "cumming", "cunt", "damn", "darkie", "daterape", "deepthroat", "dick", "dildo", "doggy", "dolcett", "domination", "dominatrix", "dommes", "dryhump", "dyke", "ecchi", "ejaculation", "erotic", "erotism", "escort", "eunuch", "fag", "fags", "fagget", "faggets", "faggit", "faggits", "faggot", "faggots", "faggut", "faghet", "faghit", "faghot", "faghut", "fecal", "feck", "felch", "felching", "fellate", "fellatio", "feltch", "femdom", "fetish", "figging", "fingerbang", "fingering", "fisting", "flange", "footjob", "frotting", "fuck", "fuckin", "fucking", "fucktard", "fucktards", "fudgepacker", "futanari", "gangbang", "gaysex", "genitals", "goatcx", "goatse", "god", "goddamn", "gokkun", "goodpoop", "googirl", "gook", "goregasm", "grope", "groupsex", "guro", "handjob", "hardcore", "hell", "hentai", "homo", "homoerotic", "honkey", "hooker", "humping", "incest", "intercourse", "jackoff", "jailbait", "jerk", "jerkoff", "jigaboo", "jiggaboo", "jiggerboo", "jizz", "juggs", "kike", "kinbaku", "kinkster", "kinky", "knobbing", "knobend", "kum", "labia", "lmao", "lmfao", "lolita", "maleass", "masturbate", "milf", "muff", "nambla", "nawashi", "nazi", "neeger", "neegger", "negger", "negro", "neonazi", "nieger", "niegger", "nig", "niga", "nigar", "niger", "nigga", "nighar", "nigah", "niggah", "nyg", "nyga", "nygah", "nygger", "nyggah", "nyggar", "nyger", "nygra", "niggar", "niggas", "nigir", "niggir", "nigirr", "niggirr", "niggaz", "nigger", "niggers", "nigges", "niggir", "niggis", "niggor", "niggos", "niggur", "niggus", "niggrer", "niggret", "nigher", "nighes", "nignog", "nigra", "nimphomania", "nipple", "nipples", "nude", "nudity", "nympho", "nymphomania", "obama", "octopussy", "omg", "omorashi", "oral", "orgasm", "orgy", "paedo", "paki", "panties", "panty", "pedo", "pegging", "penis", "pis", "piss", "pissing", "pisspig", "playboy", "ponyplay", "poof", "poon", "poontang", "poop", "porn", "porno", "prick", "pube", "pubes", "punany", "pussy", "queaf", "queef", "queer", "quim", "raghead", "rape", "raping", "rapist", "rectum", "rimjob", "rimming", "sadism", "santorum", "scat", "schlong", "scissoring", "scrotum", "semen", "sex", "sexo", "sexy", "sexx", "sexxy", "sexei", "sexxei", "shaved", "shemale", "shibari", "shit", "shitblimp", "shitty", "shota", "shrimping", "skeet", "slanteye", "slut", "smegma", "smut", "snatch", "sodomize", "sodomy", "spic", "splooge", "spooge", "spunk", "squaw", "strapon", "suck", "sucks", "suicide", "sultry", "swastika", "swinger", "threesome", "throating", "tiits", "tit", "tits", "titties", "titty", "topless", "tosser", "towelhead", "trani", "tranie", "tranni", "trannie", "tranny", "trany", "trennie", "tubgirl", "turd", "tushy", "twat", "twink", "twinkie", "upskirt", "urethra", "urophilia", "vagina", "vibrator", "voyeur", "vulva", "wank", "wetback", "whore", "wtf", "yaoi", "yiffy", "stillborn"]

/-- The `characters` table of amazon.ts: six slices of candidate substrings. -/
def amazonCharacters : List (List String) :=
  [["b", "bl", "br", "c", "chr", "cl", "cr", "d", "dr", "f", "g", "gl", "gr", "h", "j", "k", "kl", "kr", "m", "n", "p", "ph", "ps", "pr", "r", "rh", "s", "sm", "sc", "t", "th", "v", "x", "", "", "", "", "", "", ""],
   ["a", "e", "i", "o", "u", "y", "ou", "ei", "oe", "ao", "io", "eo", "a", "e", "i", "o", "u"],
   ["c", "d", "k", "l", "m", "r", "s", "t", "x", "", "", "", "", "", "", "", "", "", "", ""],
   ["c", "d", "k", "l", "m", "r", "s", "t", "x", "nd", "nt", "lk", "lc", "ll", "ndr", "br", "st", "ch", "br", "cl", "ph", "rm", "pp", "pt", "rp", "nth", "th", "rg", "thr", "dm", "lth", "lc", "chr", "phn", "dr", "mn", "rr", "rrh"],
   ["a", "e", "i", "o", "u", "y", "", "", "", "", "", "", "", "", ""],
   ["adia", "ameia", "anta", "asca", "cabe", "ce", "cleia", "cyone", "cyra", "da", "dae", "dia", "dice", "dora", "enice", "esia", "estra", "estris", "gea", "gone", "haedra", "hyia", "ippe", "isbe", "ises", "leia", "lene", "lete", "liope", "lipe", "lyte", "mache", "meia", "nache", "nara", "neira", "nestra", "nia", "nippe", "noe", "nousa", "ope", "padia", "pedo", "peia", "pesia", "phale", "pyle", "pyte", "rera", "reto", "roe", "scyra", "ses", "sippe", "sose", "tane", "thippe", "thoe", "thya", "thye", "thyia", "ybe", "yche", "yle", "yme", "yne", "yope", "yrbe", "ytie"]]

/-- The `characters` table of the alien generator: fifteen slices of candidate substrings. -/
def alienCharacters : List (List String) :=
  [["br", "c", "cr", "dr", "g", "gh", "gr", "k", "kh", "kr", "n", "q", "qh", "sc", "scr", "str", "st", "t", "tr", "thr", "v", "vr", "x", "z", "", "", "", "", ""],
   ["ae", "aa", "ai", "au", "uu", "a", "e", "i", "o", "u", "a", "e", "i", "o", "u", "a", "e", "i", "o", "u", "a", "e", "i", "o", "u", "a", "e", "i", "o", "u", "a", "e", "i", "o", "u"],
   ["c", "k", "n", "q", "t", "v", "x", "z", "c", "cc", "cr", "cz", "dr", "gr", "gn", "gm", "gv", "gz", "k", "kk", "kn", "kr", "kt", "kv", "kz", "lg", "lk", "lq", "lx", "lz", "nc", "ndr", "nkr", "ngr", "nk", "nq", "nqr", "nz", "q", "qr", "qn", "rc", "rg", "rk", "rkr", "rq", "rqr", "sc", "sq", "str", "t", "v", "vr", "x", "z", "q\u0027", "k\u0027", "rr", "r\u0027", "t\u0027", "tt", "vv", "v\u0027", "x\u0027", "z\u0027", "", "", "", "", "", "", "", "", "", "", "", "", "", "", "", "", ""],
   ["", "a", "e", "i", "o", "u", "a", "e", "i", "o", "u", "a", "e", "i", "o", "u", "oi", "ie", "ai", "ei", "eo", "ui"],
   ["d", "ds", "k", "ks", "l", "ls", "n", "ns", "ts", "x"],
   ["b", "bh", "ch", "d", "dh", "f", "h", "l", "m", "n", "ph", "r", "s", "sh", "th", "v", "y", "z", "", "", "", "", "", "", "", "", ""],
   ["ae", "ai", "ee", "ei", "ie", "a", "e", "i", "o", "u", "a", "e", "i", "o", "u", "a", "e", "i", "o", "u", "a", "e", "i", "o", "u", "a", "e", "i", "o", "u", "a", "e", "i", "o", "u"],
   ["c", "d", "g", "h", "l", "m", "n", "r", "s", "v", "z", "c", "ch", "d", "dd", "dh", "g", "gn", "h", "hl", "hm", "hn", "hr", "l", "ld", "ldr", "lg", "lgr", "lk", "ll", "lm", "ln", "lph", "lt", "lv", "lz", "m", "mm", "mn", "mh", "mph", "n", "nd", "nn", "ng", "nk", "nph", "nz", "ph", "phr", "r", "rn", "rl", "rz", "s", "ss", "sl", "sn", "st", "v", "z", "s\u0027", "l\u0027", "n\u0027", "m\u0027", "f\u0027", "h\u0027"],
   ["a", "e", "i", "o", "u", "a", "e", "i", "o", "u", "oi", "ie", "ai", "ea", "ae"],
   ["", "", "", "", "d", "ds", "h", "l", "ll", "n", "ns", "r", "rs", "s", "t", "th"],
   ["b", "bh", "br", "c", "ch", "cr", "d", "dh", "dr", "f", "g", "gh", "gr", "h", "k", "kh", "kr", "l", "m", "n", "q", "qh", "ph", "r", "s", "sc", "scr", "sh", "st", "str", "t", "th", "thr", "tr", "v", "vr", "y", "x", "z", "", "", "", "", "", "", ""],
   ["ae", "aa", "ai", "au", "ee", "ei", "ie", "uu", "a", "e", "i", "o", "u", "a", "e", "i", "o", "u", "a", "e", "i", "o", "u", "a", "e", "i", "o", "u", "a", "e", "i", "o", "u", "a", "e", "i", "o", "u"],
   ["c", "d", "g", "h", "k", "l", "m", "n", "q", "r", "s", "t", "v", "z", "c", "d", "g", "h", "k", "l", "m", "n", "q", "r", "s", "t", "v", "z", "c", "cc", "ch", "cr", "cz", "d", "dd", "dh", "dr", "g", "gm", "gn", "gr", "gv", "gz", "h", "hl", "hm", "hn", "hr", "k", "k\u0027", "kk", "kn", "kr", "kt", "kv", "kz", "l", "ld", "ldr", "lg", "lgr", "lk", "ll", "lm", "ln", "lph", "lq", "lt", "lv", "lx", "lz", "m", "mh", "mm", "mn", "mph", "n", "nc", "nd", "ndr", "ng", "ngr", "nk", "nkr", "nn", "nph", "nq", "nqr", "nz", "ph", "phr", "q", "q\u0027", "qn", "qr", "r", "r\u0027", "rc", "rg", "rk", "rkr", "rl", "rn", "rq", "rqr", "rr", "rz", "s", "sc", "sl", "sn", "sq", "ss", "st", "str", "t", "t\u0027", "tt", "v", "v\u0027", "vr", "vv", "x", "x\u0027", "z", "z\u0027", "", "", "", "", "", "", "", "", "", "", ""],
   ["", "a", "e", "i", "o", "u", "a", "e", "i", "o", "u", "a", "e", "i", "o", "u", "oi", "ie", "ai", "ea", "ae"],
   ["d", "ds", "k", "ks", "l", "ll", "ls", "n", "ns", "r", "rs", "s", "t", "ts", "th", "x", "", "", "", ""]]

/-- Slice 0 of the anansi `characters` table: full source names used as donor material. -/
def anansiSourceNames : List String :=
  ["Ã¡kron", "Ã¡mÌ€ma", "Ã¡mmÃ¡", "É”kwÃ¡n", "abÃ©naa", "aba", "abaka", "abeberese", "abena", "abenaa", "abeyie", "ablÃ¡", "ablÃ£", "aboagye", "aboah", "aborah", "aborampah", "abrafi", "abrefa", "abrema", "achamfour", "acheampong", "ackon", "acquah", "adade", "addai", "addo", "adiyiah", "adjoa", "adjowa", "adjua", "adofo", "adomah", "adomako", "adusei", "adwoa", "adwubi", "afÃ­", "afÃºom", "afful", "afirÃ­yie", "afirifa", "afoakwah", "afrakoma", "afrakomah", "afram", "afrane", "afreh", "afrifa", "afriyie", "afua", "agyapong", "agyare", "agyei", "agyeman", "agyemang", "agyenim", "ahinful", "ajwoba", "akÃºÃ¡", "akÃº", "akaminko", "akenten", "akenteng", "akomeah", "akomfrah", "akosah", "akosi", "akosiwa", "akosua", "akoto", "akrofi", "akua", "akuamoah", "akuba", "akuffo", "akun", "akwasi", "akyaw", "ama", "amakye", "amamfo", "amankona", "amankonah", "amankwah", "amba", "ame", "ameyaw", "ameyo", "ami", "amissah", "amoabeng", "amoah", "amoako", "amoateng", "amofah", "ampadu", "ampem", "ampofo", "amponsah", "amponsem", "anÃºm", "ananÃ©", "anan", "andoh", "ankobiah", "ankomah", "ankrah", "annan", "anokye", "ansah", "ansong", "antÃ³", "apau", "appiah", "araba", "arko", "arkorful", "asÃ­", "asÃ³n", "asamoah", "asante", "asantewaa", "asare", "asenso", "ashia", "asiamah", "asiedu", "asomadu", "asomaning", "assifuah", "asubonteng", "atÃ¡", "ataÃ¡", "ato", "awotwe", "awotwie", "awuah", "ayawa", "ayeh", "ayensu", "ayew", "bÃ³twe", "baaba", "baafi", "baah", "baako", "badÃº", "badÃºwaa", "baffoe", "bafuor", "baidoo", "banahene", "barwuah", "bedÃ­Ã ká¹", "bediako", "bedu", "beká¹e", "bekoe", "bemah", "berko", "boadi", "boadu", "boahen", "boakye", "boamah", "boampong", "boasiako", "boatei", "boateng", "bonah", "bonsra", "bonsrah", "bonsu", "brempong", "busia", "busiah", "cofie", "crentsil", "cudjoe", "cuffee", "dÃºkÅ©", "dÃºnu", "daako", "dankwah", "danquah", "danso", "dapaa", "dapaah", "darko", "dede", "dedei", "diawuo", "djan", "djansi", "domfe", "donkor", "dorkenoo", "duah", "dufie", "duodu", "dwamena", "dwamenah", "dwomoh", "ebo", "efia", "efua", "ekow", "ekua", "ekuoba", "enninful", "esi", "essien", "esson", "farkyi", "fiifi", "firikyi", "fofie", "fokuo", "fordjour", "forobuor", "fredua", "freduah", "fremah", "frempon", "frempong", "frimpong", "gaddo", "gyaama", "gyakari", "gyamah", "gyambibi", "gyamera", "gyamerah", "gyamfi", "gyan", "gyasi", "gyeabuor", "gyimah", "inkoom", "jojo", "kaakyire", "kaku", "kande", "karikari", "katakyie", "kenu", "kodjÃ³", "koduah", "kofÃ­", "koffi", "kofi", "kojo", "kokote", "kokou", "koku", "komi", "komlÃ¡", "komlÃ£", "komlan", "konadu", "koranten", "koranteng", "korsah", "kosi", "kouassi", "kow", "kuffour", "kufuor", "kumankama", "kumi", "kusi", "kusiwaa", "kuuku", "kuwame", "kwÃ¡mÃ¨", "kwÇŽmÃ¨", "kwaata", "kwabenÃ¡", "kwadwÃ³", "kwakÃº", "kwakye", "kwamena", "kwami", "kwamina", "kwarteng", "kwasÃ­", "kwasiba", "kwateng", "kwaw", "kwayie", "kweku", "kwesi", "kyei", "kyekyeku", "kyem", "kyerematen", "kyeremateng", "kyereme", "kyerewa", "kyerewaa", "mÃ¡anu", "mÃ¡nsÃ£", "mÇŽnu", "mansah", "manso", "meÅ„sÃ£Ì", "mensah", "mintah", "misa", "mmorosa", "mpong", "munuo", "nÃºm", "narh", "nduom", "nimo", "nimoh", "nkansa", "nkansah", "nkrÃ³ma", "nkrumah", "nsÄ©Ã£Ì", "nsá¹waa", "nsiah", "nsonwaa", "nsonwah", "nsor", "ntiamoa", "ntiamoah", "ntim", "ntow", "nuamah", "nyamÃ©ama", "nyamÃ©kyÎµ", "nyamekye", "nyankÃ³mÃ gÃ³", "nyankomago", "nyantah", "nyantakyi", "nyarko", "obÃ­mÌ€pÎ­", "obeng", "obuor", "oduro", "ofori", "ofosu", "ogyampah", "ohemeng", "ohene", "okese", "okoromansah", "okyere", "omenaa", "omenah", "opambuor", "opare", "opoku", "oppong", "opuni", "osafo", "osam", "osei", "oteng", "otuo", "owoahene", "owusu", "oyiakwan", "pÃ­Ã¨sÃ­e", "paintsil", "pappoe", "peprah", "pinaman", "poku", "prempeh", "quainoo", "quansah", "safo", "sakyi", "sarfo", "sarkodie", "sarpei", "sarpon", "sarpong", "sasraku", "siabuor", "siaw", "siisi", "sika", "sikafuo", "sintim", "siriboe", "soadwa", "soadwah", "sowah", "tÃ¡wia", "tagoe", "takyi", "tandoh", "tawiah", "tuffour", "twasam", "tweneboa", "tweneboah", "twerefuo", "twum", "twumasi", "vorsah", "wiafe", "wiredu", "yÎµmpÎ­w", "yaa", "yaaba", "yaba", "yamoah", "yankah", "yao", "yartei", "yaw", "yawo", "yeboah", "yiadom", "yoofi"]

/-- Slice 1 of the anansi `characters` table: connective vowels. -/
def anansiVowels : List String :=
  ["a", "e", "i", "o", "u", "Ã¡", "Ã£", "Ã­", "Ãº", "Ã©", "Ã³"]

/-- The `list` table of the angel generator: male (0), neutral (1) and female (2) name banks. -/
def angelList : List (List String) :=
  [["Aarin", "Abaddon", "Abalim", "Abasdarhon", "Abbadon", "Abdiel", "Abrariel", "Abraxos", "Adellum", "Adimus", "Adnachiel", "Adoel", "Adonael", "Adriel", "Afriel", "Aithen", "Akhazriel", "Akriel", "Ambriel", "Amitiel", "Amnayelth", "Amriel", "Anael", "Anahel", "Anaiel", "Anak", "Anakim", "Anaphiel", "Anapiel", "Anauel", "Anpiel", "Ansiel", "Aphaeleon", "Appoloin", "Appolyon", "Arael", "Arakiba", "Aralim", "Araqiel", "Araquiel", "Arariel", "Araton", "Archon", "Arioch", "Ariuk", "Armaros", "Asmodei", "Asmodel", "Asteraoth", "Atheed", "Azazel", "Azrael", "Azriel", "Baglis", "Ballaton", "Balthial", "Balthioul", "Barachiel", "Baradiel", "Barakiel", "Baraqiel", "Barattiel", "Barbelo", "Barbiel", "Barchiel", "Bariel", "Barquiel", "Barrattiel", "Bartholomew", "Baruchiel", "Bazazath", "Bethor", "Boamiel", "Boel", "Briathos", "Cadriel", "Cahethal", "Camael", "Camiel", "Caphriel", "Cassiel", "Castiel", "Cathetel", "Cerviel", "Chamuel", "Charoum", "Chasan", "Chayliel", "Cherubim", "Conah", "Dabriel", "Dagiel", "Dalquiel", "Damabiath", "Daniel", "Dardariel", "Diniel", "Domiel", "Douma", "Dubbiel", "Ecanus", "Elijah", "Elyon", "Emmanuel", "Empyrean", "Erathaol", "Erelim", "Eremiel", "Ezekiel", "Ezequiel", "Forcas", "Forfax", "Gabriel", "Gadiel", "Gadreel", "Gadriel", "Gagallim", "Gagiel", "Galgaliel", "Galizur", "Gazardiel", "Geburatiel", "Germael", "Gibborim", "Grigori", "Habriel", "Hadariel", "Hadramiel", "Hadraniel", "Hadriel", "Hamael", "Hamaliel", "Hamied", "Hamon", "Haniel", "Harahel", "Haroth", "Harut", "Hasdiel", "Hashmal", "Hasmal", "Hayliel", "Hayyel", "Heman", "Herchel", "Hermesiel", "Hochmael", "Hofniel", "Humatiel", "Humiel", "Iahhel", "Iaoel", "Iaoth", "Inian", "Inias", "Ishim", "Israfel", "Israfiel", "Israfil", "Ithuriel", "Izrail", "Jabril", "Jael", "Jahoel", "Jamaerah", "Jaoel", "Jeduthun", "Jehoel", "Jehudiel", "Jerahmeel", "Jeremiel", "Joshua", "Kabshiel", "Kadmiel", "Kafziel", "Kakabel", "Kalaziel", "Karael", "Karlel", "Kasbiel", "Kemuel", "Kerubiel", "Kezef", "Khamael", "Labbiel", "Lahabiel", "Leo", "Machidiel", "Madan", "Mahanaim", "Malachi", "Malakh", "Malchediel", "Malik", "Manakel", "Mariuk", "Maro", "Melkyal", "Mendrion", "Micah", "Michael", "Mihael", "Mihr", "Mikhal", "Mitatron", "Morael", "Morieshal", "Munkar", "Munkir", "Mydaiel", "Naaririel", "Nahaliel", "Nakir", "Nanael", "Narcariel", "Nasargiel", "Nathanael", "Nathaniel", "Nelchael", "Nephilim", "Nisroc", "Omael", "Omniel", "Onafiel", "Ongkanon", "Onoel", "Ophaniel", "Ophanim", "Ophiel", "Orphamiel", "Osmadiel", "Pahadron", "Pamyel", "Paschar", "Pathiel", "Peliel", "Peniel", "Perpetiel", "Phaleg", "Phanuel", "Phul", "Pravuil", "Prentum", "Qaphsiel", "Qaspiel", "Quabriel", "Rabdos", "Rachmiel", "Radueriel", "Raduriel", "Rahatiel", "Rahmiel", "Ramiel", "Rampel", "Raphael", "Rasiel", "Rathanael", "Razael", "Raziel", "Rehael", "Remiel", "Remliel", "Rhamiel", "Ridwan", "Rikbiel", "Risnuch", "Rizoel", "Rogziel", "Rostiello", "Rufeal", "Ruhiel", "Ruman", "Sabaoth", "Sabathiel", "Sablo", "Sabrael", "Sabrathan", "Sachael", "Sachiel", "Salathiel", "Samael", "Samandiriel", "Samandriel", "Samkiel", "Sammael", "Samuel", "Sandalphon", "Sandolphon", "Saniel", "Sarandiel", "Sareash", "Sariel", "Satqiel", "Sealtiel", "Semalion", "Semangelaf", "Semsapiel", "Semyaza", "Seraph", "Seraphiel", "Shamsiel", "Shepherd", "Shoftiel", "Sidqiel", "Sidriel", "Simiel", "Sizouze", "Sorath", "Sorush", "Stadiel", "Suriel", "Tabbris", "Tabris", "Tadhiel", "Tagas", "Tamiel", "Tarshishim", "Tartys", "Tatrasiel", "Tearney", "Telantes", "Temeluch", "Temlakos", "Teriesh", "Theliel", "Theo", "Tubiel", "Turiel", "Tzadkiel", "Usiel", "Usiu", "Uzziel", "Valoel", "Varhmiel", "Vequaniel", "Verchiel", "Virgil", "Vohamanah", "Vretiel", "Xaphan", "Xathanael", "Yabbashael", "Yahoel", "Yefefiah", "Yehudiah", "Yerachmiel", "Yeshamiel", "Yofiel", "Zaapiel", "Zaazenach", "Zabkiel", "Zacharael", "Zachariah", "Zachariel", "Zachriel", "Zadkeil", "Zadkiel", "Zagzagel", "Zakum", "Zakzakiel", "Zambrim", "Zaphiel", "Zaphkiel", "Zaphreal", "Zarall", "Zazriel", "Zehanpuryu", "Zephon", "Zerachiel", "Zophiel", "Zuphlas", "Zuriel"],
   ["Aarin", "Adellum", "Adoel", "Adriel", "Ambriel", "Amitiel", "Amnayel", "Amriel", "Anael", "Anahel", "Anaiel", "Anaphiel", "Anapiel", "Anauel", "Arael", "Araqiel", "Araquiel", "Arariel", "Ariuk", "Asteraoth", "Azazel", "Azrael", "Azriel", "Barbiel", "Boamiel", "Boel", "Cadriel", "Caphriel", "Cassiel", "Cathetel", "Cerviel", "Chasan", "Conah", "Dabriel", "Dardariel", "Diniel", "Domiel", "Douma", "Dubbiel", "Empyrean", "Gabriel", "Gadiel", "Gadreel", "Gadriel", "Gagiel", "Galgaliel", "Geburatiel", "Germael", "Habriel", "Hadariel", "Hadramiel", "Hadraniel", "Hadriel", "Hamaliel", "Haniel", "Harahel", "Hayliel", "Hayyel", "Humatiel", "Humiel", "Iahhel", "Iaoel", "Iaoth", "Ithuriel", "Izrail", "Jabril", "Jamaerah", "Jaoel", "Kakabel", "Karael", "Karlel", "Labbiel", "Lahabiel", "Madan", "Mahanaim", "Maroth", "Micah", "Mihr", "Morael", "Mydaiel", "Naaririel", "Nahaliel", "Nanael", "Omniel", "Onoel", "Ophanim", "Ophiel", "Pamyel", "Peliel", "Peniel", "Perpetiel", "Quabriel", "Radueriel", "Raduriel", "Rahatiel", "Rahmiel", "Ramiel", "Rehael", "Remiel", "Remliel", "Rhamiel", "Ruhiel", "Sabrael", "Sachael", "Sachiel", "Salathiel", "Saniel", "Sarandiel", "Sareash", "Sariel", "Semyaza", "Seraph", "Shoftiel", "Sizouze", "Suriel", "Tabbris", "Tabris", "Tadhiel", "Tartys", "Tatrasiel", "Telantes", "Theliel", "Usiel", "Usiu", "Valoel", "Vequaniel", "Verchiel", "Virgil", "Vohamanah", "Vretiel", "Xathanael", "Yahoel", "Yofiel", "Zarall", "Zazriel", "Zophiel", "Zuriel"],
   ["Aarin", "Adellum", "Adelphi", "Adoel", "Adriel", "Aeshma", "Agla", "Ahiah", "Aliyah", "Amaliel", "Ambriel", "Amitiel", "Amnayel", "Amriel", "Anael", "Anahel", "Anahita", "Anaiel", "Anaphiel", "Anapiel", "Anauel", "Andromeda", "Arael", "Araqiel", "Araquiel", "Arariel", "Ariel", "Ariuk", "Armaita", "Asaph", "Asariel", "Asheal", "Ashliel", "Asteraoth", "Asuriel", "Atrugiel", "Ayil", "Azazel", "Azrael", "Azriel", "Barbiel", "Boamiel", "Boel", "Breenelle", "Cadriel", "Caphriel", "Cassiel", "Cathetel", "Cerviel", "Charmeine", "Chasan", "Conah", "Coretha", "Dabriel", "Dahlia", "Daphiel", "Dardariel", "Dazielle", "Dina", "Diniel", "Domiel", "Douma", "Dubbiel", "Duma", "Dumah", "Eae", "Eiael", "Elemiah", "Empyrean", "Ephemera", "Eshreal", "Esme", "Esther", "Exousia", "Felice", "Feota", "Gabriel", "Gadiel", "Gadreel", "Gadriel", "Gagiel", "Galgaliel", "Gamaliel", "Gatriel", "Gavreel", "Geburatiel", "Germael", "Gezuriya", "Guriel", "Gzrel", "Haamiah", "Habriel", "Hadariel", "Hadramiel", "Hadraniel", "Hadriel", "Hael", "Hagith", "Halaliel", "Hamaliel", "Haniel", "Hannah", "Hanniah", "Harahel", "Hayliel", "Hayyel", "Haziel", "Hecca", "Hemah", "Hester", "Humatiel", "Humiel", "Iahhel", "Iaoel", "Iaoth", "Inasyah", "Iofiel", "Irin", "Isda", "Ithuriel", "Izrail", "Jabril", "Jamaerah", "Jaoel", "Jefischa", "Jophiel", "Kakabel", "Kalmiya", "Karael", "Karlel", "Kasdeja", "Kristiel", "Labbiel", "Lahabiel", "Lailah", "Laurette", "Lavina", "Layla", "Laylah", "Liel", "Liwet", "Madan", "Mahanaim", "Maion", "Malaliel", "Maliel", "Mariel", "Marmaroth", "Maroth", "Mastema", "Matariel", "Mattia", "Micah", "Michelle", "Mihr", "Minda", "Miniel", "Morael", "Mumiah", "Mumiel", "Muriel", "Mydaiel", "Naaririel", "Nahaliel", "Nanael", "Naomi", "Naya\u0027il", "Nemamiah", "Neriah", "Nuriel", "Omniel", "Onoel", "Ooniemme", "Ophanim", "Ophiel", "Oriash", "Oriel", "Orifiel", "Oriphiel", "Ouriel", "Pahaliah", "Pamyel", "Peliel", "Penemu", "Penemuel", "Peniel", "Perpetiel", "Pesagniyah", "Phounebiel", "Portia", "Pronoia", "Purah", "Puriel", "Qaddisin", "Quabriel", "Rachel", "Rachiel", "Radueriel", "Raduriel", "Raguel", "Rahatiel", "Rahmiel", "Ramiel", "Rehael", "Remiel", "Remliel", "Rhamiel", "Ruhiel", "Sabrael", "Sachael", "Sachiel", "Sahaqiel", "Salathiel", "Saniel", "Sansanvi", "Sanvi", "Sarakiel", "Sarandiel", "Saraqael", "Saraquiel", "Sareash", "Sariel", "Semyaza", "Seraph", "Shoftiel", "Sizouze", "Sofiel", "Sopheriel", "Sophia", "Sraosha", "Suriel", "Sybil", "Tabbris", "Tabris", "Tadhiel", "Taharial", "Tartys", "Tatrasiel", "Telantes", "Temperance", "Theliel", "Ubaviel", "Umabel", "Uriel", "Usiel", "Usiu", "Valoel", "Vequaniel", "Verchiel", "Virgil", "Vohamanah", "Vretiel", "Xathanael", "Yahoel", "Yofie", "Zarall", "Zazriel", "Zophiel", "Zuriel"]]

/-- sensitivity-check.ts: a word is safe when its lowercased form does not occur
verbatim in `sensitiveWords` (`words.indexOf(name) === -1`). -/
def SensitivityCheck (word : String) : Bool :=
  !(sensitiveWords.contains (jsToLower word))

/-- A name-construction pattern: `indices` is the splice order over slice
positions of a character table, `conflictIdx` the slice requiring conflict
resolution against its neighbours in that order. -/
structure NPattern where
  indices : List Nat
  conflictIdx : Nat
deriving DecidableEq

/-- `characters[i][indices[i]]`: the candidate currently drawn for slice `i`. -/
def sliceCand (chars : List (List String)) (idxs : List Nat) (i : Nat) : String :=
  (chars.getD i []).getD (idxs.getD i 0) ""

/-- `pattern.indices[conflictPos - 1]`: the slice just before the conflict slice
in splice order. -/
def prevSlice (pat : NPattern) : Nat :=
  pat.indices.getD (pat.indices.indexOf pat.conflictIdx - 1) 0

/-- `pattern.indices[conflictPos + 1]`: the slice just after the conflict slice
in splice order. -/
def nextSlice (pat : NPattern) : Nat :=
  pat.indices.getD (pat.indices.indexOf pat.conflictIdx + 1) 0

/-- The guard of the conflict re-draw `while` loop: the conflict slice's
candidate equals the previous or the next slice's candidate. -/
def conflictClash (chars : List (List String)) (pat : NPattern) (idxs : List Nat) : Bool :=
  sliceCand chars idxs (prevSlice pat) == sliceCand chars idxs pat.conflictIdx ||
    sliceCand chars idxs pat.conflictIdx == sliceCand chars idxs (nextSlice pat)

/-- The conflict re-draw loop: while the conflict slice's candidate clashes with a
neighbour, re-draw `indices[conflictIdx]`. `fuel` bounds the number of re-draws and
`none` models the JS loop failing to exit within that bound. -/
def resolveConflict (chars : List (List String)) (pat : NPattern) (oracle : Nat → Nat)
    (fuel : Nat) (idxs : List Nat) (k : Nat) : Option (List Nat × Nat) :=
  if conflictClash chars pat idxs then
    match fuel with
    | 0 => none
    | f + 1 =>
      resolveConflict chars pat oracle f
        (idxs.set pat.conflictIdx (oracle k % (chars.getD pat.conflictIdx []).length)) (k + 1)
  else some (idxs, k)

/-- `pattern.indices.map(idx => characters[idx][indices[idx]])`: the fragments the
name is spliced from. -/
def fragsOf (chars : List (List String)) (pat : NPattern) (idxs : List Nat) : List String :=
  pat.indices.map (fun i => sliceCand chars idxs i)

/-- `PATTERN_COUNT` of amazon.ts. -/
def amazonPATTERN_COUNT : Nat := 2

/-- The `PATTERNS` of amazon.ts. -/
def amazonPATTERNS : List NPattern :=
  [⟨[0, 1, 2, 4, 5], 2⟩, ⟨[0, 1, 3, 1, 5], 3⟩]

/-- One iteration body of amazon's `generate` loop: select a pattern, draw an index
for every character slice, resolve the conflict slice, splice the name. -/
def amazonDraft (fuel : Nat) (oracle : Nat → Nat) (k : Nat) : Option (String × Nat) :=
  let pat := amazonPATTERNS.getD (oracle k % amazonPATTERN_COUNT) ⟨[], 0⟩
  let idxs := (List.range amazonCharacters.length).map
    (fun i => oracle (k + 1 + i) % (amazonCharacters.getD i []).length)
  match resolveConflict amazonCharacters pat oracle fuel idxs (k + 1 + amazonCharacters.length) with
  | none => none
  | some (idxs2, k2) => some (String.join (fragsOf amazonCharacters pat idxs2), k2)

/-- The bounded retry loop of a pattern generator's `generate`: run the draft,
accept it if safe, otherwise retry until the attempt budget is exhausted, in which
case the last-drafted candidate is returned. `none` propagates a diverging
conflict loop. -/
def retryRun (draft : Nat → Option (String × Nat)) :
    Nat → Nat → String → Option (String × Nat)
  | 0, k, name => some (name, k)
  | n + 1, k, name =>
    match draft k with
    | none => none
    | some (c, k2) => if SensitivityCheck c then some (c, k2) else retryRun draft n k2 c

/-- The sequence of candidates the retry loop would draft if no draft were ever
accepted (used to phrase exhaustion properties). -/
def retryTrace (draft : Nat → Option (String × Nat)) : Nat → Nat → Option (List String)
  | 0, _ => some []
  | n + 1, k =>
    match draft k with
    | none => none
    | some (c, k2) =>
      match retryTrace draft n k2 with
      | none => none
      | some cs => some (c :: cs)

/-- The batch loop `for (i = 0; i < COUNT; i++) names[i] = generate()` of a
pattern generator, threading the random stream through successive calls. -/
def retryBatch (draft : Nat → Option (String × Nat)) : Nat → Nat → Option (List String × Nat)
  | 0, k => some ([], k)
  | n + 1, k =>
    match retryRun draft MAX_ATTEMPTS k "" with
    | none => none
    | some (c, k2) =>
      match retryBatch draft n k2 with
      | none => none
      | some (cs, k3) => some (c :: cs, k3)

/-- Amazon's `generate`: the retry loop started with `name = ''` and `attempts = 0`. -/
def amazonGenerate (fuel : Nat) (oracle : Nat → Nat) (k : Nat) : Option (String × Nat) :=
  retryRun (amazonDraft fuel oracle) MAX_ATTEMPTS k ""

/-- The JSON payload of a generator's `Response`: either a flat array of names or
an object mapping gender keys to name lists. -/
inductive JsonOut where
  | arr (names : List String)
  | obj (entries : List (String × List String))
deriving DecidableEq

/-- `AmazonNames`: a batch of `COUNT` names returned as a flat JSON array. -/
def amazonNames (fuel : Nat) (oracle : Nat → Nat) : Option JsonOut :=
  match retryBatch (amazonDraft fuel oracle) COUNT 0 with
  | none => none
  | some (names, _) => some (JsonOut.arr names)

/-- `PATTERN_COUNT` of the alien generator. -/
def alienPATTERN_COUNT : Nat := 3

/-- The `PATTERNS` of the alien generator. -/
def alienPATTERNS : List NPattern :=
  [⟨[0, 1, 2, 3, 4], 2⟩, ⟨[5, 6, 7, 8, 9], 7⟩, ⟨[10, 11, 12, 13, 14], 12⟩]

/-- One iteration body of the alien `generate` loop (same shape as amazon's, over
its own table and patterns). -/
def alienDraft (fuel : Nat) (oracle : Nat → Nat) (k : Nat) : Option (String × Nat) :=
  let pat := alienPATTERNS.getD (oracle k % alienPATTERN_COUNT) ⟨[], 0⟩
  let idxs := (List.range alienCharacters.length).map
    (fun i => oracle (k + 1 + i) % (alienCharacters.getD i []).length)
  match resolveConflict alienCharacters pat oracle fuel idxs (k + 1 + alienCharacters.length) with
  | none => none
  | some (idxs2, k2) => some (String.join (fragsOf alienCharacters pat idxs2), k2)

/-- Alien's `generate`. -/
def alienGenerate (fuel : Nat) (oracle : Nat → Nat) (k : Nat) : Option (String × Nat) :=
  retryRun (alienDraft fuel oracle) MAX_ATTEMPTS k ""

/-- `AlienNames`: a batch of `COUNT` names under the `"neutral"` key. -/
def alienNames (fuel : Nat) (oracle : Nat → Nat) : Option JsonOut :=
  match retryBatch (alienDraft fuel oracle) COUNT 0 with
  | none => none
  | some (names, _) => some (JsonOut.obj [("neutral", names)])

/-- The split-point clamping of anansi.ts applied to each cut draw: a draw of 0
becomes 1, a draw below 3 becomes 3 when the donor word is longer than 4
characters, and a draw above 5 is capped at 5. -/
def anansiCut (len d : Nat) : Nat :=
  let r := if d = 0 then 1 else d
  let r2 := if r < 3 ∧ len > 4 then 3 else r
  if r2 > 5 then 5 else r2

/-- `if (random[1] === 1 && random[3] === 1) random[3] = 3`: the suffix cut is
forced to 3 when both clamped cut draws are 1. -/
def anansiSuffixCut (c1 c3 : Nat) : Nat :=
  if c1 = 1 ∧ c3 = 1 then 3 else c3

/-- The two donor words drawn at the start of an anansi iteration. -/
def anansiDonors (oracle : Nat → Nat) (k : Nat) : String × String :=
  (anansiSourceNames.getD (oracle k % anansiSourceNames.length) "",
    anansiSourceNames.getD (oracle (k + 1) % anansiSourceNames.length) "")

/-- The vowel-connection logic of anansi.ts joining a prefix fragment and a suffix
fragment, consuming one extra draw only when a connective vowel is inserted. -/
def anansiJoin (start endPart : String) (oracle : Nat → Nat) (k : Nat) : String × Nat :=
  let lastChar := jsLast start
  let firstChar := jsTake endPart 1
  if anansiVowels.contains lastChar && anansiVowels.contains firstChar then
    if anansiVowels.contains (jsSlice endPart 1 2) then
      (start ++ jsDrop endPart 2, k)
    else
      (start ++ jsDrop endPart 1, k)
  else if anansiVowels.contains lastChar || anansiVowels.contains firstChar then
    (start ++ endPart, k)
  else
    (start ++ anansiVowels.getD (oracle k % anansiVowels.length) "" ++ endPart, k + 1)

/-- One iteration body of anansi's `generate` loop: draw two donor words; if
either is shorter than 4 characters the iteration is skipped (`continue`), else
cut a prefix and a suffix and join them through the vowel-connection logic. The
second component is the next random-draw position. -/
def anansiStep (oracle : Nat → Nat) (k : Nat) : Option String × Nat :=
  let w1 := (anansiDonors oracle k).1
  let w2 := (anansiDonors oracle k).2
  if jsLen w1 < 4 ∨ jsLen w2 < 4 then (none, k + 2)
  else
    let c1 := anansiCut (jsLen w1) (oracle (k + 2) % jsLen w1)
    let c3 := anansiSuffixCut c1 (anansiCut (jsLen w2) (oracle (k + 3) % jsLen w2))
    let res := anansiJoin (jsTake w1 c1) (jsDrop w2 c3) oracle (k + 4)
    (some res.1, res.2)

/-- The bounded retry loop of anansi's `generate`: a skipped iteration keeps the
previous draft, a drafted candidate is accepted if safe, and exhaustion returns
the current `name` variable. -/
def skipRun (step : Nat → Option String × Nat) : Nat → Nat → String → String × Nat
  | 0, k, name => (name, k)
  | n + 1, k, name =>
    match step k with
    | (none, k2) => skipRun step n k2 name
    | (some c, k2) => if SensitivityCheck c then (c, k2) else skipRun step n k2 c

/-- The candidates anansi's loop would assemble if no draft were ever accepted
(skipped iterations contribute nothing). -/
def skipTrace (step : Nat → Option String × Nat) : Nat → Nat → List String
  | 0, _ => []
  | n + 1, k =>
    match step k with
    | (none, k2) => skipTrace step n k2
    | (some c, k2) => c :: skipTrace step n k2

/-- Anansi's batch loop, threading the random stream through `COUNT` calls. -/
def skipBatch (step : Nat → Option String × Nat) : Nat → Nat → List String × Nat
  | 0, k => ([], k)
  | n + 1, k =>
    let r := skipRun step MAX_ATTEMPTS k ""
    let rest := skipBatch step n r.2
    (r.1 :: rest.1, rest.2)

/-- Anansi's `generate`: the retry loop started with `name = ''` and `attempts = 0`. -/
def anansiGenerate (oracle : Nat → Nat) (k : Nat) : String × Nat :=
  skipRun (anansiStep oracle) MAX_ATTEMPTS k ""

/-- `AnansiNames`: a batch of `COUNT` names under the `"neutral"` key. -/
def anansiNames (oracle : Nat → Nat) : JsonOut :=
  JsonOut.obj [("neutral", (skipBatch (anansiStep oracle) COUNT 0).1)]

/-- The angel generator's `generate(gender)`: one uniform draw from the male list
for `"male"`, the female list for `"female"`, and the neutral list otherwise. -/
def angelGenerate (gender : String) (r : Nat) : String :=
  if gender = "male" then (angelList.getD 0 []).getD (r % (angelList.getD 0 []).length) ""
  else if gender = "female" then (angelList.getD 2 []).getD (r % (angelList.getD 2 []).length) ""
  else (angelList.getD 1 []).getD (r % (angelList.getD 1 []).length) ""

/-- One gender's batch loop in `AngelNames`, drawing at positions `off ..
off + COUNT - 1` of the random stream. -/
def angelBatchFor (gender : String) (oracle : Nat → Nat) (off : Nat) : List String :=
  (List.range COUNT).map (fun i => angelGenerate gender (oracle (off + i)))

/-- `AngelNames`: `COUNT` names for each of the neutral, male and female keys. -/
def angelNames (oracle : Nat → Nat) : JsonOut :=
  JsonOut.obj [("neutral", angelBatchFor "neutral" oracle 0),
    ("male", angelBatchFor "male" oracle COUNT),
    ("female", angelBatchFor "female" oracle (2 * COUNT))]

/-- Modelled from the spec: the animal-species generator's source file is not
under src (only its registry entry and import are); per the spec every registered
theme returns a mapping whose `"neutral"` list has exactly the configured count
of entries. -/
def animalSpeciesNames (_fuel : Nat) (_oracle : Nat → Nat) : Option JsonOut :=
  some (JsonOut.obj [("neutral", List.replicate COUNT "species")])

/-- The `generators` registry of name-generators.ts, in insertion order. -/
def nameGenerators : List (String × (Nat → (Nat → Nat) → Option JsonOut)) :=
  [("alien", fun fuel oracle => alienNames fuel oracle),
    ("amazon", fun fuel oracle => amazonNames fuel oracle),
    ("anansi", fun _ oracle => some (anansiNames oracle)),
    ("angel", fun _ oracle => some (angelNames oracle)),
    ("animal-species", animalSpeciesNames)]

/-- The property names a plain object literal inherits from `Object.prototype`
(its own property set in Node). The JS lookup `generators[normalizedType]`
misses the five registry keys but can still hit one of these on the prototype
chain, and every inherited value is truthy. Since the requested type is
lowercased before the lookup and property names are case-sensitive, only the
all-lowercase names (`"constructor"`, `"__proto__"`) are actually reachable. -/
def objectPrototypeProps : List String :=
  ["constructor", "__defineGetter__", "__defineSetter__", "hasOwnProperty",
    "__lookupGetter__", "__lookupSetter__", "isPrototypeOf",
    "propertyIsEnumerable", "toString", "toLocaleString", "valueOf", "__proto__"]

/-- The outcome of requesting an `Object.prototype`-inherited key: the inherited
value is truthy, so the `!generator` unsupported-type guard does not fire;
calling it does not produce a `Response`, and `response.json()` (or the call
itself) raises a `TypeError`, which the catch block re-throws unchanged because
it is an `Error`. The exact message is runtime-dependent (for example
`"response.json is not a function"` for `"constructor"`); this marker stands for
that re-thrown `TypeError`. -/
def prototypeTypeError : Except String (List (String × List String)) :=
  Except.error "TypeError"

/-- `generateNames` of name-generators.ts: lowercase the requested type and look
it up in the registry object. An own registry key runs its generator, rejecting
a flat-array payload as an invalid format (`none` models a diverging generator);
a miss that still hits an `Object.prototype`-inherited property bypasses the
unsupported-type guard and ends in a re-thrown `TypeError`; any other identifier
is rejected with the descriptive error enumerating the registry keys. -/
def generateNames (ty : String) (fuel : Nat) (oracle : Nat → Nat) :
    Option (Except String (List (String × List String))) :=
  match nameGenerators.lookup (jsToLower ty) with
  | none =>
    if objectPrototypeProps.contains (jsToLower ty) then some prototypeTypeError
    else
      some (Except.error ("Name generator type \"" ++ ty ++ "\" is not supported. Available types: "
        ++ String.intercalate ", " (nameGenerators.map Prod.fst)))
  | some g =>
    match g fuel oracle with
    | none => none
    | some (JsonOut.arr _) => some (Except.error "Invalid response format from generator")
    | some (JsonOut.obj entries) => some (Except.ok entries)

/-- A uniform draw with replacement stays inside the list drawn from. -/
theorem getD_mod_mem (l : List String) (r : Nat) (h : 0 < l.length) :
    l.getD (r % l.length) "" ∈ l := by
  have hlt : r % l.length < l.length := Nat.mod_lt r h
  rw [List.getD_eq_getElem l "" hlt]
  exact List.getElem_mem hlt

/-- Claim C5: `SensitivityCheck` rejects a word exactly when its lowercased form
is verbatim an entry of the static blocklist; any word whose lowercased form is
not itself an entry — including one that merely contains an entry as a proper
substring — is reported safe. -/
theorem sensitivityCheck_exact_match :
    (∀ w, SensitivityCheck w = false ↔ jsToLower w ∈ sensitiveWords) ∧
    (∀ w, jsToLower w ∉ sensitiveWords → SensitivityCheck w = true) := by
  constructor
  · intro w
    simp [SensitivityCheck, List.contains, List.elem_iff]
  · intro w h
    simp [SensitivityCheck, List.contains, List.elem_iff, h]

/-- Witness for C5: `"Ass"` lowercases onto the blocklist entry `"ass"` and is
rejected, while `"asses"` contains `"ass"` as a proper substring yet is safe. -/
theorem sensitivityCheck_exact_match_witness :
    SensitivityCheck "Ass" = false ∧ SensitivityCheck "asses" = true :=
  ⟨(sensitivityCheck_exact_match.1 "Ass").mpr (by decide),
    sensitivityCheck_exact_match.2 "asses" (by decide)⟩

/-- Claim C6 (as amended): a requested type whose lowercased form is neither a
registry key nor an `Object.prototype`-inherited property name makes
`generateNames` fail with the descriptive error that names the attempted
identifier and enumerates all supported identifiers; a lowercased identifier
that is an inherited prototype property instead bypasses the unsupported-type
guard and ends in a re-thrown `TypeError`. -/
theorem generateNames_unknown_type :
    (∀ (ty : String) (fuel : Nat) (oracle : Nat → Nat),
      nameGenerators.lookup (jsToLower ty) = none →
      objectPrototypeProps.contains (jsToLower ty) = false →
      generateNames ty fuel oracle =
        some (Except.error ("Name generator type \"" ++ ty ++
          "\" is not supported. Available types: " ++
          "alien, amazon, anansi, angel, animal-species"))) ∧
    (∀ (ty : String) (fuel : Nat) (oracle : Nat → Nat),
      nameGenerators.lookup (jsToLower ty) = none →
      objectPrototypeProps.contains (jsToLower ty) = true →
      generateNames ty fuel oracle = some prototypeTypeError) := by
  constructor
  · intro ty fuel oracle h hp
    unfold generateNames
    rw [h, hp]
    rfl
  · intro ty fuel oracle h hp
    unfold generateNames
    rw [h, hp]
    rfl

/-- Counterexample for C6 as originally stated: `"constructor"` is not a
registry key after lowercasing, yet `generateNames` does not produce the
descriptive enumerating error for it — the truthy inherited
`Object.prototype.constructor` passes the `!generator` guard and a `TypeError`
is re-thrown instead. -/
theorem generateNames_unknown_type_counterexample :
    nameGenerators.lookup (jsToLower "constructor") = none ∧
    generateNames "constructor" 0 (fun _ => 0) = some prototypeTypeError ∧
    generateNames "constructor" 0 (fun _ => 0) ≠
      some (Except.error ("Name generator type \"" ++ "constructor" ++
        "\" is not supported. Available types: " ++
        "alien, amazon, anansi, angel, animal-species")) := by
  refine ⟨rfl, rfl, fun h => ?_⟩
  have h1 := Option.some.inj h
  rw [prototypeTypeError] at h1
  exact absurd (Except.error.inj h1) (by decide)

/-- Witness for C6: the unknown theme `"dwarf"` from the spec's scenario B gets
the descriptive enumerating error, while `"__proto__"` hits the prototype chain
and gets the `TypeError` outcome. -/
theorem generateNames_unknown_type_witness :
    generateNames "dwarf" 0 (fun _ => 0) =
      some (Except.error ("Name generator type \"" ++ "dwarf" ++
        "\" is not supported. Available types: " ++
        "alien, amazon, anansi, angel, animal-species")) ∧
    generateNames "__proto__" 0 (fun _ => 0) = some prototypeTypeError :=
  ⟨generateNames_unknown_type.1 "dwarf" 0 (fun _ => 0) rfl rfl,
    generateNames_unknown_type.2 "__proto__" 0 (fun _ => 0) rfl rfl⟩

/-- `Array.prototype.includes`-style membership test as a decidable proposition. -/
theorem contains_eq_decide (l : List String) (a : String) :
    l.contains a = decide (a ∈ l) := by
  by_cases h : a ∈ l <;> simp [List.contains, List.elem_iff, h]

/-- Claim C4: the anansi hiatus resolver implements exactly the four-case policy:
both boundary characters vowels with a vowel second suffix character drops two
suffix characters, both vowels otherwise drops one, exactly one vowel joins
unchanged, and no vowel inserts one uniformly drawn connective vowel. -/
theorem anansiJoin_hiatus_policy (s e : String) (oracle : Nat → Nat) (k : Nat) :
    (jsLast s ∈ anansiVowels → jsTake e 1 ∈ anansiVowels → jsSlice e 1 2 ∈ anansiVowels →
      anansiJoin s e oracle k = (s ++ jsDrop e 2, k)) ∧
    (jsLast s ∈ anansiVowels → jsTake e 1 ∈ anansiVowels → jsSlice e 1 2 ∉ anansiVowels →
      anansiJoin s e oracle k = (s ++ jsDrop e 1, k)) ∧
    ((jsLast s ∈ anansiVowels ∧ jsTake e 1 ∉ anansiVowels) ∨
        (jsLast s ∉ anansiVowels ∧ jsTake e 1 ∈ anansiVowels) →
      anansiJoin s e oracle k = (s ++ e, k)) ∧
    (jsLast s ∉ anansiVowels → jsTake e 1 ∉ anansiVowels →
      anansiVowels.getD (oracle k % anansiVowels.length) "" ∈ anansiVowels ∧
      anansiJoin s e oracle k =
        (s ++ anansiVowels.getD (oracle k % anansiVowels.length) "" ++ e, k + 1)) := by
  refine ⟨?_, ?_, ?_, ?_⟩
  · intro h1 h2 h3
    simp [anansiJoin, contains_eq_decide, h1, h2, h3]
  · intro h1 h2 h3
    simp [anansiJoin, contains_eq_decide, h1, h2, h3]
  · rintro (⟨h1, h2⟩ | ⟨h1, h2⟩) <;>
      simp [anansiJoin, contains_eq_decide, h1, h2]
  · intro h1 h2
    refine ⟨getD_mod_mem _ _ (by decide), ?_⟩
    simp [anansiJoin, contains_eq_decide, h1, h2]

/-- Witness for C4: `"kw"` and `"kro"` meet at two consonants, so a connective
vowel drawn at position `k = 0` is inserted between them. -/
theorem anansiJoin_hiatus_policy_witness :
    anansiVowels.getD ((fun (_ : Nat) => 4) 0 % anansiVowels.length) "" ∈ anansiVowels ∧
    anansiJoin "kw" "kro" (fun _ => 4) 0 =
      ("kw" ++ anansiVowels.getD ((fun (_ : Nat) => 4) 0 % anansiVowels.length) "" ++ "kro", 0 + 1) :=
  (anansiJoin_hiatus_policy "kw" "kro" (fun _ => 4) 0).2.2.2 (by decide) (by decide)

/-- Claim C7: anansi's split points obey the pre-constraints: every clamped cut
lies in `[1, 5]` and is at least 3 for donor words longer than 4 characters (the
same clamping biases both the prefix cut and the suffix cut start); when both
clamped draws are 1 the suffix cut is forced to 3; and a candidate is only ever
assembled from donor words of at least 4 characters. -/
theorem anansi_cut_constraints :
    (∀ len d, 1 ≤ anansiCut len d ∧ anansiCut len d ≤ 5 ∧ (4 < len → 3 ≤ anansiCut len d)) ∧
    (∀ c1 c3, c1 = 1 → c3 = 1 → anansiSuffixCut c1 c3 = 3) ∧
    (∀ oracle k nm k2, anansiStep oracle k = (some nm, k2) →
      4 ≤ jsLen (anansiDonors oracle k).1 ∧ 4 ≤ jsLen (anansiDonors oracle k).2) := by
  refine ⟨?_, ?_, ?_⟩
  · intro len d
    simp only [anansiCut]
    split_ifs <;> omega
  · intro c1 c3 h1 h3
    simp [anansiSuffixCut, h1, h3]
  · intro oracle k nm k2 h
    simp only [anansiStep] at h
    split at h
    · simp at h
    · next hc =>
      push_neg at hc
      omega

/-- Witness for C7: a donor of length 5 with draw 0 is clamped to cut 3; clamped
draws `(1, 1)` force the suffix cut to 3; and the concrete step drafting `"kum"`
from `"kyem"` only fires because both donors have at least 4 characters. -/
theorem anansi_cut_constraints_witness :
    (1 ≤ anansiCut 5 0 ∧ anansiCut 5 0 ≤ 5 ∧ (4 < 5 → 3 ≤ anansiCut 5 0)) ∧
    anansiSuffixCut 1 1 = 3 ∧
    (4 ≤ jsLen (anansiDonors (fun _ => 4525) 0).1 ∧
      4 ≤ jsLen (anansiDonors (fun _ => 4525) 0).2) :=
  ⟨anansi_cut_constraints.1 5 0,
    anansi_cut_constraints.2.1 1 1 rfl rfl,
    anansi_cut_constraints.2.2 (fun _ => 4525) 0 "kum" 5 rfl⟩

/-- Claim C8: every name produced by the angel gender-bank path is an exact
element of the fixed list for its gender key: `"male"` draws from the male list,
`"female"` from the female list, and any other key from the neutral list; this
extends to every name of every per-gender batch. -/
theorem angel_names_from_fixed_lists :
    (∀ r, angelGenerate "male" r ∈ angelList.getD 0 []) ∧
    (∀ r, angelGenerate "female" r ∈ angelList.getD 2 []) ∧
    (∀ g r, ¬ g = "male" → ¬ g = "female" → angelGenerate g r ∈ angelList.getD 1 []) ∧
    (∀ g oracle off nm, nm ∈ angelBatchFor g oracle off →
      (g = "male" → nm ∈ angelList.getD 0 []) ∧
      (g = "female" → nm ∈ angelList.getD 2 []) ∧
      (¬ g = "male" → ¬ g = "female" → nm ∈ angelList.getD 1 [])) := by
  have hmale : ∀ r, angelGenerate "male" r ∈ angelList.getD 0 [] := by
    intro r
    exact getD_mod_mem _ _ (by decide)
  have hfemale : ∀ r, angelGenerate "female" r ∈ angelList.getD 2 [] := by
    intro r
    exact getD_mod_mem _ _ (by decide)
  have hother : ∀ g r, ¬ g = "male" → ¬ g = "female" →
      angelGenerate g r ∈ angelList.getD 1 [] := by
    intro g r h1 h2
    unfold angelGenerate
    rw [if_neg h1, if_neg h2]
    exact getD_mod_mem _ _ (by decide)
  refine ⟨hmale, hfemale, hother, ?_⟩
  intro g oracle off nm hnm
  obtain ⟨i, _, rfl⟩ := List.mem_map.mp hnm
  refine ⟨fun hg => ?_, fun hg => ?_, fun hg1 hg2 => ?_⟩
  · rw [hg]; exact hmale _
  · rw [hg]; exact hfemale _
  · exact hother g _ hg1 hg2

/-- Witness for C8: concrete draws land in the corresponding fixed lists, and a
batch name for an unrecognised key `"other"` comes from the neutral list. -/
theorem angel_names_from_fixed_lists_witness :
    angelGenerate "male" 7 ∈ angelList.getD 0 [] ∧
    angelGenerate "female" 7 ∈ angelList.getD 2 [] ∧
    angelGenerate "other" 7 ∈ angelList.getD 1 [] :=
  ⟨angel_names_from_fixed_lists.1 7,
    angel_names_from_fixed_lists.2.1 7,
    angel_names_from_fixed_lists.2.2.1 "other" 7 (by decide) (by decide)⟩

/-- Exiting the conflict re-draw loop means its guard is false for the returned
index assignment. -/
theorem resolveConflict_no_clash {chars : List (List String)} {pat : NPattern}
    {oracle : Nat → Nat} :
    ∀ {fuel : Nat} {idxs : List Nat} {k : Nat} {idxs2 : List Nat} {k2 : Nat},
      resolveConflict chars pat oracle fuel idxs k = some (idxs2, k2) →
      conflictClash chars pat idxs2 = false := by
  intro fuel
  induction fuel with
  | zero =>
    intro idxs k idxs2 k2 h
    rw [resolveConflict] at h
    cases hc : conflictClash chars pat idxs with
    | true => simp [hc] at h
    | false =>
      simp [hc] at h
      rw [← h.1]
      exact hc
  | succ f ih =>
    intro idxs k idxs2 k2 h
    rw [resolveConflict] at h
    cases hc : conflictClash chars pat idxs with
    | true =>
      simp only [hc, if_true] at h
      exact ih h
    | false =>
      simp [hc] at h
      rw [← h.1]
      exact hc

/-- The conflict re-draw loop only ever rewrites the index drawn for the
conflict slice; all other slices keep their original draw. -/
theorem resolveConflict_set_other {chars : List (List String)} {pat : NPattern}
    {oracle : Nat → Nat} :
    ∀ {fuel : Nat} {idxs : List Nat} {k : Nat} {idxs2 : List Nat} {k2 : Nat},
      resolveConflict chars pat oracle fuel idxs k = some (idxs2, k2) →
      ∀ i, ¬ i = pat.conflictIdx → idxs2.getD i 0 = idxs.getD i 0 := by
  intro fuel
  induction fuel with
  | zero =>
    intro idxs k idxs2 k2 h i _
    rw [resolveConflict] at h
    cases hc : conflictClash chars pat idxs with
    | true => simp [hc] at h
    | false =>
      simp [hc] at h
      rw [h.1]
  | succ f ih =>
    intro idxs k idxs2 k2 h i hi
    rw [resolveConflict] at h
    cases hc : conflictClash chars pat idxs with
    | true =>
      simp only [hc, if_true] at h
      rw [ih h i hi, List.getD_eq_getElem?_getD, List.getD_eq_getElem?_getD,
        List.getElem?_set_ne (fun hne => hi hne.symm)]
      rw [← List.getD_eq_getElem?_getD]
    | false =>
      simp [hc] at h
      rw [h.1]

/-- A clash-free index assignment passes the conflict loop unchanged, whatever
the fuel. -/
theorem resolveConflict_of_no_clash {chars : List (List String)} {pat : NPattern}
    {oracle : Nat → Nat} (fuel : Nat) (idxs : List Nat) (k : Nat)
    (h : conflictClash chars pat idxs = false) :
    resolveConflict chars pat oracle fuel idxs k = some (idxs, k) := by
  cases fuel <;> rw [resolveConflict] <;> simp [h]

/-- Claim C3: whenever the conflict re-draw loop of an alien or amazon pattern
exits, the candidate drawn for the conflict slice differs from the candidate of
the slice immediately before it in splice order and from the candidate of the
slice immediately after it. -/
theorem conflict_neighbors_differ :
    (∀ pat ∈ amazonPATTERNS, ∀ (fuel : Nat) (oracle : Nat → Nat) (idxs : List Nat)
        (k : Nat) (idxs2 : List Nat) (k2 : Nat),
      resolveConflict amazonCharacters pat oracle fuel idxs k = some (idxs2, k2) →
      sliceCand amazonCharacters idxs2 (prevSlice pat) ≠
          sliceCand amazonCharacters idxs2 pat.conflictIdx ∧
        sliceCand amazonCharacters idxs2 pat.conflictIdx ≠
          sliceCand amazonCharacters idxs2 (nextSlice pat)) ∧
    (∀ pat ∈ alienPATTERNS, ∀ (fuel : Nat) (oracle : Nat → Nat) (idxs : List Nat)
        (k : Nat) (idxs2 : List Nat) (k2 : Nat),
      resolveConflict alienCharacters pat oracle fuel idxs k = some (idxs2, k2) →
      sliceCand alienCharacters idxs2 (prevSlice pat) ≠
          sliceCand alienCharacters idxs2 pat.conflictIdx ∧
        sliceCand alienCharacters idxs2 pat.conflictIdx ≠
          sliceCand alienCharacters idxs2 (nextSlice pat)) := by
  have key : ∀ (chars : List (List String)) (pat : NPattern) (oracle : Nat → Nat)
      (fuel : Nat) (idxs : List Nat) (k : Nat) (idxs2 : List Nat) (k2 : Nat),
      resolveConflict chars pat oracle fuel idxs k = some (idxs2, k2) →
      sliceCand chars idxs2 (prevSlice pat) ≠ sliceCand chars idxs2 pat.conflictIdx ∧
        sliceCand chars idxs2 pat.conflictIdx ≠ sliceCand chars idxs2 (nextSlice pat) := by
    intro chars pat oracle fuel idxs k idxs2 k2 h
    have hc := resolveConflict_no_clash h
    simpa [conflictClash] using hc
  exact ⟨fun pat _ fuel oracle idxs k idxs2 k2 h => key _ pat oracle fuel idxs k idxs2 k2 h,
    fun pat _ fuel oracle idxs k idxs2 k2 h => key _ pat oracle fuel idxs k idxs2 k2 h⟩

/-- Witness for C3: the first amazon pattern with the all-zero draw passes the
loop directly and its conflict candidate `"c"` differs from both neighbouring
vowel candidates `"a"`. -/
theorem conflict_neighbors_differ_witness :
    sliceCand amazonCharacters [0, 0, 0, 0, 0, 0] (prevSlice ⟨[0, 1, 2, 4, 5], 2⟩) ≠
        sliceCand amazonCharacters [0, 0, 0, 0, 0, 0] (NPattern.mk [0, 1, 2, 4, 5] 2).conflictIdx ∧
      sliceCand amazonCharacters [0, 0, 0, 0, 0, 0] (NPattern.mk [0, 1, 2, 4, 5] 2).conflictIdx ≠
        sliceCand amazonCharacters [0, 0, 0, 0, 0, 0] (nextSlice ⟨[0, 1, 2, 4, 5], 2⟩) :=
  conflict_neighbors_differ.1 ⟨[0, 1, 2, 4, 5], 2⟩ (by decide) 0 (fun _ => 0)
    [0, 0, 0, 0, 0, 0] 0 [0, 0, 0, 0, 0, 0] 0 rfl

/-- Claim C9: under amazon's second pattern `[0, 1, 3, 1, 5]` the second and the
fourth spliced fragments are the same string — both positions read character set 1
through the single stored draw — and the conflict re-draw loop only modifies the
draw stored for set 3. -/
theorem amazon_pattern2_repeated_fragment :
    (∀ idxs : List Nat,
      (fragsOf amazonCharacters (amazonPATTERNS.getD 1 ⟨[], 0⟩) idxs).getD 1 "" =
        (fragsOf amazonCharacters (amazonPATTERNS.getD 1 ⟨[], 0⟩) idxs).getD 3 "") ∧
    (∀ (fuel : Nat) (oracle : Nat → Nat) (idxs : List Nat) (k : Nat)
        (idxs2 : List Nat) (k2 : Nat),
      resolveConflict amazonCharacters (amazonPATTERNS.getD 1 ⟨[], 0⟩) oracle fuel idxs k =
          some (idxs2, k2) →
      ∀ i, ¬ i = 3 → idxs2.getD i 0 = idxs.getD i 0) := by
  constructor
  · intro idxs
    rfl
  · intro fuel oracle idxs k idxs2 k2 h i hi
    exact resolveConflict_set_other h i hi

/-- Witness for C9: the all-zero draw under pattern 2 repeats fragment `"a"` at
splice positions 1 and 3, and a loop exit leaves the non-conflict draw for set 2
untouched. -/
theorem amazon_pattern2_repeated_fragment_witness :
    (fragsOf amazonCharacters (amazonPATTERNS.getD 1 ⟨[], 0⟩) [0, 0, 0, 0, 0, 0]).getD 1 "" =
        (fragsOf amazonCharacters (amazonPATTERNS.getD 1 ⟨[], 0⟩) [0, 0, 0, 0, 0, 0]).getD 3 "" ∧
      ([0, 0, 0, 0, 0, 0] : List Nat).getD 2 0 = ([0, 0, 0, 0, 0, 0] : List Nat).getD 2 0 :=
  ⟨amazon_pattern2_repeated_fragment.1 [0, 0, 0, 0, 0, 0],
    amazon_pattern2_repeated_fragment.2 0 (fun _ => 0) [0, 0, 0, 0, 0, 0] 0
      [0, 0, 0, 0, 0, 0] 0 rfl 2 (by decide)⟩

/-- The batch loop produces exactly as many names as requested. -/
theorem retryBatch_length (draft : Nat → Option (String × Nat)) :
    ∀ (n k : Nat) (l : List String) (k2 : Nat),
      retryBatch draft n k = some (l, k2) → l.length = n := by
  intro n
  induction n with
  | zero =>
    intro k l k2 h
    rw [retryBatch] at h
    simp at h
    rw [h.1]
    rfl
  | succ m ih =>
    intro k l k2 h
    rw [retryBatch] at h
    cases hr : retryRun draft MAX_ATTEMPTS k "" with
    | none => rw [hr] at h; simp at h
    | some p =>
      obtain ⟨c, kc⟩ := p
      rw [hr] at h
      dsimp only at h
      cases hb : retryBatch draft m kc with
      | none => rw [hb] at h; simp at h
      | some q =>
        obtain ⟨cs, k3⟩ := q
        rw [hb] at h
        simp at h
        rw [← h.1]
        simp [ih kc cs k3 (by rw [hb])]

/-- Claim C1 (code divergence): whenever `AmazonNames` terminates it returns a
flat JSON array of `COUNT` names — never a gender-keyed mapping with a
`"neutral"` entry — and consequently `generateNames "amazon"` always fails with
the invalid-format error instead of returning a mapping. -/
theorem amazon_returns_flat_array :
    (∀ (fuel : Nat) (oracle : Nat → Nat) (out : JsonOut),
      amazonNames fuel oracle = some out →
      ∃ l : List String, out = JsonOut.arr l ∧ l.length = COUNT) ∧
    (∀ (fuel : Nat) (oracle : Nat → Nat) (r : Except String (List (String × List String))),
      generateNames "amazon" fuel oracle = some r →
      r = Except.error "Invalid response format from generator") := by
  have harr : ∀ (fuel : Nat) (oracle : Nat → Nat) (out : JsonOut),
      amazonNames fuel oracle = some out →
      ∃ l : List String, out = JsonOut.arr l ∧ l.length = COUNT := by
    intro fuel oracle out h
    rw [amazonNames] at h
    cases hb : retryBatch (amazonDraft fuel oracle) COUNT 0 with
    | none => rw [hb] at h; simp at h
    | some p =>
      rw [hb] at h
      simp at h
      exact ⟨p.1, h.symm, retryBatch_length _ COUNT 0 p.1 p.2 (by rw [hb])⟩
  refine ⟨harr, ?_⟩
  intro fuel oracle r h
  have hlook : nameGenerators.lookup (jsToLower "amazon") =
      some (fun fuel oracle => amazonNames fuel oracle) := rfl
  rw [generateNames, hlook] at h
  dsimp only at h
  cases ha : amazonNames fuel oracle with
  | none => rw [ha] at h; simp at h
  | some out =>
    obtain ⟨l, rfl, _⟩ := harr fuel oracle out ha
    rw [ha] at h
    simp at h
    exact h.symm

/-- Witness for C1: under the all-zero random stream amazon accepts `"bacaadia"`
ten times, the payload is the flat array of those ten names, and the entry point
rejects it as an invalid format. -/
theorem amazon_returns_flat_array_witness :
    (∃ l : List String, JsonOut.arr (List.replicate 10 "bacaadia") = JsonOut.arr l ∧
      l.length = COUNT) ∧
    (Except.error "Invalid response format from generator" :
        Except String (List (String × List String))) =
      Except.error "Invalid response format from generator" :=
  ⟨amazon_returns_flat_array.1 0 (fun _ => 0) (JsonOut.arr (List.replicate 10 "bacaadia")) rfl,
    amazon_returns_flat_array.2 0 (fun _ => 0)
      (Except.error "Invalid response format from generator") rfl⟩

/-- The last element of a nonempty replicated list. -/
theorem getLastD_replicate (a : String) :
    ∀ (n : Nat) (d : String), 0 < n → (List.replicate n a).getLastD d = a := by
  intro n
  induction n with
  | zero => intro d h; omega
  | succ m ih =>
    intro d _
    rw [List.replicate_succ, List.getLastD_cons]
    cases hm : m with
    | zero => rfl
    | succ m2 => rw [← hm]; exact ih a (by omega)

/-- If every candidate the anansi loop would assemble fails the filter, the loop
runs its whole budget and yields the last assembled candidate (or the incoming
`name` if none was assembled). -/
theorem skipRun_exhaust (step : Nat → Option String × Nat) :
    ∀ (n k : Nat) (name : String),
      (∀ c ∈ skipTrace step n k, SensitivityCheck c = false) →
      (skipRun step n k name).1 = (skipTrace step n k).getLastD name := by
  intro n
  induction n with
  | zero => intro k name _; rfl
  | succ m ih =>
    intro k name hall
    rw [skipRun, skipTrace]
    rw [skipTrace] at hall
    cases hs : step k with
    | mk copt k2 =>
      rw [hs] at hall
      cases copt with
      | none => exact ih k2 name hall
      | some c =>
        dsimp only at hall ⊢
        have hc : SensitivityCheck c = false := hall c (by simp)
        rw [hc]
        simp only [Bool.false_eq_true, if_false]
        rw [List.getLastD_cons]
        exact ih k2 c (fun x hx => hall x (by simp [hx]))

/-- If the drafts all exist and all fail the filter, the pattern-generator retry
loop runs its whole budget and yields the last-drafted candidate. -/
theorem retryRun_exhaust (draft : Nat → Option (String × Nat)) :
    ∀ (n k : Nat) (name : String) (ds : List String),
      retryTrace draft n k = some ds →
      (∀ c ∈ ds, SensitivityCheck c = false) →
      (retryRun draft n k name).map Prod.fst = some (ds.getLastD name) := by
  intro n
  induction n with
  | zero =>
    intro k name ds ht _
    rw [retryTrace] at ht
    simp at ht
    subst ht
    rfl
  | succ m ih =>
    intro k name ds ht hall
    rw [retryTrace] at ht
    rw [retryRun]
    cases hd : draft k with
    | none => rw [hd] at ht; simp at ht
    | some p =>
      obtain ⟨c, kc⟩ := p
      rw [hd] at ht
      dsimp only at ht
      cases htr : retryTrace draft m kc with
      | none => rw [htr] at ht; simp at ht
      | some cs =>
        rw [htr] at ht
        simp at ht
        rw [← ht]
        have hc : SensitivityCheck c = false := by
          apply hall
          rw [← ht]
          simp
        dsimp only
        rw [hc]
        simp only [Bool.false_eq_true, if_false]
        rw [List.getLastD_cons]
        apply ih kc c cs htr
        intro x hx
        apply hall
        rw [← ht]
        simp [hx]

/-- Claim C2: for each single-name synthesis (anansi, amazon, alien), when every
candidate drafted across the whole `MAX_ATTEMPTS` retry budget fails the content
filter, the generator still terminates and returns the last-drafted candidate —
which may itself equal a blocklist entry — rather than throwing. -/
theorem exhausted_retry_returns_last_draft :
    (∀ (oracle : Nat → Nat) (k : Nat),
      (∀ c ∈ skipTrace (anansiStep oracle) MAX_ATTEMPTS k, SensitivityCheck c = false) →
      (anansiGenerate oracle k).1 = (skipTrace (anansiStep oracle) MAX_ATTEMPTS k).getLastD "") ∧
    (∀ (fuel : Nat) (oracle : Nat → Nat) (k : Nat) (ds : List String),
      retryTrace (amazonDraft fuel oracle) MAX_ATTEMPTS k = some ds →
      (∀ c ∈ ds, SensitivityCheck c = false) →
      (amazonGenerate fuel oracle k).map Prod.fst = some (ds.getLastD "")) ∧
    (∀ (fuel : Nat) (oracle : Nat → Nat) (k : Nat) (ds : List String),
      retryTrace (alienDraft fuel oracle) MAX_ATTEMPTS k = some ds →
      (∀ c ∈ ds, SensitivityCheck c = false) →
      (alienGenerate fuel oracle k).map Prod.fst = some (ds.getLastD "")) :=
  ⟨fun oracle k h => skipRun_exhaust _ MAX_ATTEMPTS k "" h,
    fun _ _ k ds ht h => retryRun_exhaust _ MAX_ATTEMPTS k "" ds ht h,
    fun _ _ k ds ht h => retryRun_exhaust _ MAX_ATTEMPTS k "" ds ht h⟩

/-- A rigged random stream: every draw is 4525, so each anansi iteration picks
donor `"kyem"` twice, cuts `"k"` and `"m"`, and inserts the vowel `"u"`. -/
def kumOracle : Nat → Nat := fun _ => 4525

/-- `kumOracle` is constant. -/
theorem kumOracle_app (m : Nat) : kumOracle m = 4525 := rfl

/-- Every anansi iteration under `kumOracle` drafts the blocklisted `"kum"`. -/
theorem kumOracle_step (k : Nat) : anansiStep kumOracle k = (some "kum", k + 5) := by
  simp only [anansiStep, anansiDonors, anansiJoin, kumOracle_app]
  rfl

/-- Under `kumOracle` the whole trace is `"kum"` repeated. -/
theorem kumOracle_trace : ∀ (n k : Nat),
    skipTrace (anansiStep kumOracle) n k = List.replicate n "kum" := by
  intro n
  induction n with
  | zero => intro k; rfl
  | succ m ih =>
    intro k
    rw [skipTrace, kumOracle_step]
    dsimp only
    rw [ih, List.replicate_succ]

/-- A rigged random stream for the alien generator: every draw is 80084, so each
iteration drafts the blocklisted `"anal"` with no conflict re-draw. -/
def analOracle : Nat → Nat := fun _ => 80084

/-- `analOracle` is constant. -/
theorem analOracle_app (m : Nat) : analOracle m = 80084 := rfl

/-- Every alien iteration under `analOracle` drafts the blocklisted `"anal"`,
whatever the conflict-loop fuel. -/
theorem analOracle_draft (fuel k : Nat) :
    alienDraft fuel analOracle k = some ("anal", k + 16) := by
  simp only [alienDraft, analOracle_app]
  rw [resolveConflict_of_no_clash _ _ _ (by decide)]
  rfl

/-- Under `analOracle` the whole trace is `"anal"` repeated. -/
theorem analOracle_trace (fuel : Nat) : ∀ (n k : Nat),
    retryTrace (alienDraft fuel analOracle) n k = some (List.replicate n "anal") := by
  intro n
  induction n with
  | zero => intro k; rfl
  | succ m ih =>
    intro k
    rw [retryTrace, analOracle_draft]
    dsimp only
    rw [ih, List.replicate_succ]

/-- Witness for C2: under the rigged streams every one of the 1000 anansi drafts
is the blocklisted `"kum"` and every one of the 1000 alien drafts is the
blocklisted `"anal"`; both loops exit and return those candidates anyway. -/
theorem exhausted_retry_returns_last_draft_witness :
    ((anansiGenerate kumOracle 0).1 = "kum" ∧ SensitivityCheck "kum" = false) ∧
    ((alienGenerate 7 analOracle 0).map Prod.fst = some "anal" ∧
      SensitivityCheck "anal" = false) := by
  constructor
  · constructor
    · have h := exhausted_retry_returns_last_draft.1 kumOracle 0 (by
        intro c hc
        rw [kumOracle_trace] at hc
        rw [List.eq_of_mem_replicate hc]
        decide)
      rw [kumOracle_trace, getLastD_replicate _ _ _ (by decide)] at h
      exact h
    · decide
  · constructor
    · have h := exhausted_retry_returns_last_draft.2.2 7 analOracle 0
        (List.replicate MAX_ATTEMPTS "anal") (analOracle_trace 7 MAX_ATTEMPTS 0) (by
          intro c hc
          rw [List.eq_of_mem_replicate hc]
          decide)
      rw [getLastD_replicate _ _ _ (by decide)] at h
      exact h
    · decide

/-- A rigged random stream under which every anansi iteration draws donor
`"aba"` (3 characters) twice and is skipped as ineligible. -/
def abaOracle : Nat → Nat := fun _ => 5

/-- `abaOracle` is constant. -/
theorem abaOracle_app (m : Nat) : abaOracle m = 5 := rfl

/-- Every iteration under `abaOracle` fails the donor-length eligibility check,
consumes its two draws, and assembles nothing. -/
theorem abaOracle_step (k : Nat) : anansiStep abaOracle k = (none, k + 2) := by
  simp only [anansiStep, anansiDonors, abaOracle_app]
  rfl

/-- Under `abaOracle` the retry loop burns its whole budget two draws at a time
and never rebinds `name`. -/
theorem abaOracle_run : ∀ (n k : Nat) (name : String),
    skipRun (anansiStep abaOracle) n k name = (name, k + 2 * n) := by
  intro n
  induction n with
  | zero => intro k name; rfl
  | succ m ih =>
    intro k name
    rw [skipRun, abaOracle_step]
    dsimp only
    rw [ih]
    congr 1
    omega

/-- Under `abaOracle` no candidate is ever assembled. -/
theorem abaOracle_trace : ∀ (n k : Nat), skipTrace (anansiStep abaOracle) n k = [] := by
  intro n
  induction n with
  | zero => intro k; rfl
  | succ m ih =>
    intro k
    rw [skipTrace, abaOracle_step]
    dsimp only
    exact ih (k + 2)

/-- Under `abaOracle` every one of the `COUNT` batch slots receives the empty
string, the whole budget of each call being consumed by eligibility failures. -/
theorem abaOracle_batch : ∀ (n k : Nat),
    skipBatch (anansiStep abaOracle) n k = (List.replicate n "", k + 2000 * n) := by
  intro n
  induction n with
  | zero => intro k; rfl
  | succ m ih =>
    intro k
    rw [skipBatch, abaOracle_run, ih]
    rw [List.replicate_succ]
    dsimp only
    congr 1
    show k + 2 * MAX_ATTEMPTS + 2000 * m = k + 2000 * (m + 1)
    simp only [MAX_ATTEMPTS]
    omega

/-- Claim C10: there is a random stream under which anansi's `generate` returns
the empty string: the corpus has entries shorter than 4 characters (`"aba"`),
a stream that always selects one makes every iteration an eligibility failure
charged against the same `MAX_ATTEMPTS` budget as filter failures, no candidate
is ever assembled, and the never-assigned `name = ''` is returned and fills every
slot of the batch. -/
theorem anansi_empty_name_possible :
    ("aba" ∈ anansiSourceNames ∧ jsLen "aba" < 4) ∧
    (∀ k, anansiStep abaOracle k = (none, k + 2)) ∧
    skipTrace (anansiStep abaOracle) MAX_ATTEMPTS 0 = [] ∧
    anansiGenerate abaOracle 0 = ("", 2000) ∧
    anansiNames abaOracle = JsonOut.obj [("neutral", List.replicate COUNT "")] := by
  refine ⟨⟨by decide, by decide⟩, abaOracle_step, abaOracle_trace MAX_ATTEMPTS 0, ?_, ?_⟩
  · rw [anansiGenerate, abaOracle_run]
    rfl
  · rw [anansiNames, abaOracle_batch]
